import Mathlib

/-
  Verification of the connection-factory and retry-wrapper core of the
  go-ovirt-client repository (file client_factory.go, package govirt).

  Modelling conventions:
  * Go strings are modelled as lists of characters (GoStr).  The functions
    strings.HasPrefix and strings.HasSuffix become List.isPrefixOf and
    List.isSuffixOf of the pattern against the string; strings.SplitN with
    limit 2 is modelled by splitN2 below.
  * Go errors produced with fmt.Errorf are modelled by the inductive GoError:
    GoError.msg s is a leaf error whose text is s (all percent-s arguments
    substituted), and GoError.wrap s e models fmt.Errorf with a percent-w
    verb, s being the surrounding text and e the wrapped cause.
  * External effects (the x509 system certificate pool, PEM parsing inside
    AppendCertsFromPEM, reading a CA file from disk, the SDK connection
    builder, the outcome of each disk-removal request, and the cancellation
    state of a context) are supplied as explicit environments (TLSEnv,
    NewEnv, DiskEnv), so every function of the source becomes a pure,
    executable Lean function of its inputs and environment.
  * The unbounded retry loop of RemoveDisk is given explicit fuel; the
    value none means the fuel was exhausted before the loop exited.
-/

namespace GoVirt

/-- Go strings, modelled as lists of characters. -/
abbrev GoStr := List Char

/-- Go error values built with fmt.Errorf: a leaf message, or a message
wrapping a cause (the percent-w argument). -/
inductive GoError where
  | msg (s : String)
  | wrap (s : String) (cause : GoError)
deriving DecidableEq

/-- The scheme token http:// tested by validateURL with strings.HasPrefix. -/
def httpScheme : GoStr := "http://".data

/-- The scheme token https:// tested by validateURL with strings.HasSuffix. -/
def httpsScheme : GoStr := "https://".data

/-- Source function validateURL: note that the source really combines
strings.HasPrefix for http:// with strings.HasSuffix for https://. -/
def validateURL (url : GoStr) : Except GoError Unit :=
  if !(httpScheme.isPrefixOf url) && !(httpsScheme.isSuffixOf url) then
    Except.error (GoError.msg ("URL must start with http:// or https://"))
  else
    Except.ok ()

/-- Split a list at the first occurrence of sep: returns the part before and
the part after that occurrence, or none when sep does not occur. -/
def splitFirst (sep : Char) : GoStr → Option (GoStr × GoStr)
  | [] => none
  | c :: rest =>
    if c = sep then some ([], rest)
    else (splitFirst sep rest).map (fun p => (c :: p.1, p.2))

/-- Model of strings.SplitN(s, sep, 2): one part when sep does not occur,
otherwise the part before the first sep and everything after it. -/
def splitN2 (sep : Char) (s : GoStr) : List GoStr :=
  match splitFirst sep s with
  | none => [s]
  | some p => [p.1, p.2]

/-- Source function validateUsername, following the source control flow:
SplitN on the at sign with limit 2, then the three checks in order. -/
def validateUsername (username : GoStr) : Except GoError Unit :=
  let usernameParts := splitN2 '@' username
  if usernameParts.length ≠ 2 then
    Except.error (GoError.msg ("username must contain exactly one @ sign (format should be admin@internal)"))
  else if (usernameParts.getD 0 []).length = 0 then
    Except.error (GoError.msg ("no user supplied before @ sign in username (format should be admin@internal)"))
  else if (usernameParts.getD 1 []).length = 0 then
    Except.error (GoError.msg ("no scope supplied after @ sign in username (format should be admin@internal)"))
  else
    Except.ok ()

/-- Numeric value of the Go constant tls.VersionTLS12. -/
def VersionTLS12 : Nat := 0x0303

/-- Numeric value of the Go cipher-suite constant of the same name. -/
def TLS_ECDHE_ECDSA_WITH_AES_128_GCM_SHA256 : Nat := 0xc02b

/-- Numeric value of the Go cipher-suite constant of the same name. -/
def TLS_ECDHE_RSA_WITH_AES_128_GCM_SHA256 : Nat := 0xc02f

/-- Numeric value of the Go cipher-suite constant of the same name. -/
def TLS_ECDHE_ECDSA_WITH_AES_256_GCM_SHA384 : Nat := 0xc02c

/-- Numeric value of the Go cipher-suite constant of the same name. -/
def TLS_ECDHE_RSA_WITH_AES_256_GCM_SHA384 : Nat := 0xc030

/-- Numeric value of the Go cipher-suite constant of the same name. -/
def TLS_ECDHE_ECDSA_WITH_CHACHA20_POLY1305 : Nat := 0xcca9

/-- Numeric value of the Go cipher-suite constant of the same name. -/
def TLS_ECDHE_RSA_WITH_CHACHA20_POLY1305 : Nat := 0xcca8

/-- Numeric value of the Go curve constant tls.CurveP256. -/
def CurveP256 : Nat := 23

/-- Numeric value of the Go curve constant tls.CurveP384. -/
def CurveP384 : Nat := 24

/-- The fields of the Go tls.Config value that createTLSConfig sets.  The
source never assigns RootCAs, so the built certificate pool is not part of
the returned configuration. -/
structure TLSConfig where
  minVersion : Nat
  cipherSuites : List Nat
  curvePreferences : List Nat
  preferServerCipherSuites : Bool
  insecureSkipVerify : Bool
deriving DecidableEq

/-- A certificate pool, as a list of appended PEM blobs (bytes as Nat). -/
abbrev CertPool := List (List Nat)

/-- Environment for createTLSConfig: availability and content of the system
certificate pool, the PEM-parsing oracle behind AppendCertsFromPEM, and the
file system behind ioutil.ReadFile. -/
structure TLSEnv where
  systemPoolOk : Bool
  systemPool : CertPool
  pemOk : List Nat → Bool
  readFile : GoStr → Except GoError (List Nat)

/-- Model of CertPool.AppendCertsFromPEM: reports whether the bytes parsed
as PEM and appends them to the pool when they did. -/
def appendCertsFromPEM (env : TLSEnv) (pool : CertPool) (pem : List Nat) :
    Bool × CertPool :=
  if env.pemOk pem then (true, pool ++ [pem]) else (false, pool)

/-- Source function createTLSConfig.  The fixed profile is built first; the
system pool is used when available and an empty pool otherwise; non-empty
inline CA bytes are appended before the CA file is read; each failure is the
corresponding source error.  As in the source, the final pool is discarded
(RootCAs is never installed into the configuration). -/
def createTLSConfig (env : TLSEnv) (caFile : GoStr) (caCert : List Nat)
    (insecure : Bool) : Except GoError TLSConfig :=
  let tlsConfig : TLSConfig :=
    { minVersion := VersionTLS12
      cipherSuites := [
        TLS_ECDHE_ECDSA_WITH_AES_128_GCM_SHA256,
        TLS_ECDHE_RSA_WITH_AES_128_GCM_SHA256,
        TLS_ECDHE_ECDSA_WITH_AES_256_GCM_SHA384,
        TLS_ECDHE_RSA_WITH_AES_256_GCM_SHA384,
        TLS_ECDHE_ECDSA_WITH_CHACHA20_POLY1305,
        TLS_ECDHE_RSA_WITH_CHACHA20_POLY1305]
      curvePreferences := [CurveP256, CurveP384]
      preferServerCipherSuites := false
      insecureSkipVerify := insecure }
  let certPool : CertPool := if env.systemPoolOk then env.systemPool else []
  if caCert.length ≠ 0 ∧ env.pemOk caCert = false then
    Except.error (GoError.msg ("the provided CA certificate is not a valid certificate in PEM format"))
  else
    let certPool : CertPool :=
      if caCert.length ≠ 0 then (appendCertsFromPEM env certPool caCert).2 else certPool
    if caFile ≠ [] then
      match env.readFile caFile with
      | Except.error err =>
        Except.error (GoError.wrap ("failed to read CA certificate from file " ++ String.mk caFile) err)
      | Except.ok pemData =>
        if env.pemOk pemData = false then
          Except.error (GoError.msg ("the provided CA certificate is not a valid certificate in PEM format in file " ++ String.mk caFile))
        else
          let _certPool := (appendCertsFromPEM env certPool pemData).2
          Except.ok tlsConfig
    else
      Except.ok tlsConfig

/-- Everything New passes into the SDK connection builder before Build:
URL, credentials, CA material, insecure flag, the log callback, and the
extra headers (none when the map was empty, mirroring the conditional
Headers call in the source). -/
structure ConnParams where
  url : GoStr
  username : GoStr
  password : GoStr
  caFile : GoStr
  caCert : List Nat
  insecure : Bool
  headers : Option (List (GoStr × GoStr))
  logFunc : Nat

/-- Environment for New: the TLS environment and the outcome of the SDK
connection builder Build call (the connection handle is opaque). -/
structure NewEnv where
  tlsEnv : TLSEnv
  buildConn : ConnParams → Except GoError Nat

/-- The http.Client New builds: a transport carrying the TLS configuration. -/
structure HTTPClient where
  tlsClientConfig : TLSConfig
deriving DecidableEq

/-- The wrapper struct oVirtClient of the source. -/
structure oVirtClient where
  conn : Nat
  httpClient : HTTPClient
  logger : Nat
  url : GoStr
deriving DecidableEq

/-- Source function New: validate URL, validate username, enforce the trust
invariant, build the SDK connection, build the TLS configuration, assemble
the wrapper.  Each failure is wrapped exactly as in the source. -/
def New (env : NewEnv) (url username password caFile : GoStr)
    (caCert : List Nat) (insecure : Bool)
    (extraHeaders : List (GoStr × GoStr)) (logger : Nat) :
    Except GoError oVirtClient :=
  match validateURL url with
  | Except.error err => Except.error (GoError.wrap ("invalid URL: " ++ String.mk url) err)
  | Except.ok _ =>
  match validateUsername username with
  | Except.error err => Except.error (GoError.wrap ("invalid username: " ++ String.mk username) err)
  | Except.ok _ =>
  if caFile = [] ∧ caCert.length = 0 ∧ insecure = false then
    Except.error (GoError.msg ("one of caFile, caCert, or insecure must be provided"))
  else
    match env.buildConn
        { url := url, username := username, password := password,
          caFile := caFile, caCert := caCert, insecure := insecure,
          headers := if extraHeaders.length > 0 then some extraHeaders else none,
          logFunc := logger } with
    | Except.error err =>
      Except.error (GoError.wrap ("failed to create underlying oVirt connection") err)
    | Except.ok conn =>
    match createTLSConfig env.tlsEnv caFile caCert insecure with
    | Except.error err =>
      Except.error (GoError.wrap ("failed to create TLS configuration") err)
    | Except.ok tlsConfig =>
      Except.ok
        { conn := conn, httpClient := { tlsClientConfig := tlsConfig },
          logger := logger, url := url }

/-- Method GetSDKClient, in state-passing form: the Go method reads o.conn
and performs no assignment, so the post-state is the receiver unchanged. -/
def oVirtClient.GetSDKClient (o : oVirtClient) : Nat × oVirtClient :=
  (o.conn, o)

/-- Method GetHTTPClient, in state-passing form (no assignment in the Go
method body). -/
def oVirtClient.GetHTTPClient (o : oVirtClient) : HTTPClient × oVirtClient :=
  (o.httpClient, o)

/-- Method GetURL, in state-passing form (no assignment in the Go method
body). -/
def oVirtClient.GetURL (o : oVirtClient) : GoStr × oVirtClient :=
  (o.url, o)

/-- Environment for RemoveDisk: the outcome of the n-th Remove().Send()
request (none is success, some err the returned error), and whether the
context Done channel is ready at the n-th wait boundary. -/
structure DiskEnv where
  attempt : Nat → Option GoError
  ctxDone : Nat → Bool

/-- Outcome of one run of the RemoveDisk retry loop: the returned value,
the number of removal attempts performed, and the number of completed
five-second waits. -/
structure RDRun where
  result : Except GoError Unit
  attemptsMade : Nat
  waitsCompleted : Nat

/-- The RemoveDisk retry loop, with fuel.  Attempt n is made first; on
success the loop returns nil at once.  On failure the last error is
recorded, then the select either observes the context Done channel (return
the timeout error wrapping the last error) or completes a five-second wait
and loops.  At a boundary where the context is not yet done the timer case
fires, matching the source select. -/
def removeDiskLoop (diskID : GoStr) (env : DiskEnv) :
    Nat → Nat → Option RDRun
  | 0, _ => none
  | fuel + 1, n =>
    match env.attempt n with
    | none => some ⟨Except.ok (), n + 1, n⟩
    | some err =>
      if env.ctxDone n then
        some ⟨Except.error (GoError.wrap ("timeout while tryint to remove disk " ++ String.mk diskID)
          (GoError.wrap ("failed to remove disk " ++ String.mk diskID) err)), n + 1, n⟩
      else
        removeDiskLoop diskID env fuel (n + 1)

/-- Method RemoveDisk, in state-passing form: the loop result together with
the receiver, which the Go method never assigns to. -/
def oVirtClient.RemoveDisk (o : oVirtClient) (env : DiskEnv) (diskID : GoStr)
    (fuel : Nat) : Option RDRun × oVirtClient :=
  (removeDiskLoop diskID env fuel 0, o)

/-- A TLS environment whose file system has no readable files and whose PEM
oracle accepts everything; used to instantiate theorems. -/
def tlsEnvNoFile : TLSEnv :=
  { systemPoolOk := true, systemPool := [],
    pemOk := fun _ => true,
    readFile := fun _ => Except.error (GoError.msg ("no such file or directory")) }

/-- A TLS environment whose PEM oracle rejects everything; used to
instantiate theorems about invalid CA bytes. -/
def tlsEnvBadPEM : TLSEnv :=
  { systemPoolOk := true, systemPool := [],
    pemOk := fun _ => false,
    readFile := fun _ => Except.error (GoError.msg ("no such file or directory")) }

/-- A New environment whose connection builder always succeeds. -/
def newEnvOk : NewEnv :=
  { tlsEnv := tlsEnvNoFile, buildConn := fun _ => Except.ok 0 }

/-- A New environment whose connection builder always succeeds and whose
PEM oracle rejects everything. -/
def newEnvBadPEM : NewEnv :=
  { tlsEnv := tlsEnvBadPEM, buildConn := fun _ => Except.ok 0 }

/-- The TLS configuration literal built by createTLSConfig with the
insecure flag set. -/
def tlsSample : TLSConfig :=
  { minVersion := VersionTLS12
    cipherSuites := [
      TLS_ECDHE_ECDSA_WITH_AES_128_GCM_SHA256,
      TLS_ECDHE_RSA_WITH_AES_128_GCM_SHA256,
      TLS_ECDHE_ECDSA_WITH_AES_256_GCM_SHA384,
      TLS_ECDHE_RSA_WITH_AES_256_GCM_SHA384,
      TLS_ECDHE_ECDSA_WITH_CHACHA20_POLY1305,
      TLS_ECDHE_RSA_WITH_CHACHA20_POLY1305]
    curvePreferences := [CurveP256, CurveP384]
    preferServerCipherSuites := false
    insecureSkipVerify := true }

/-- A concrete wrapper value used to instantiate the RemoveDisk theorems. -/
def sampleClient : oVirtClient :=
  { conn := 0, httpClient := { tlsClientConfig := tlsSample },
    logger := 0, url := "http://engine.example/ovirt-engine/api".data }

/-- A disk environment where every removal attempt fails and the context is
already cancelled at every wait boundary. -/
def diskEnvFailCancelled : DiskEnv :=
  { attempt := fun _ => some (GoError.msg ("remove failed")),
    ctxDone := fun _ => true }

/-- A disk environment where the first two removal attempts fail, the third
succeeds, and the context never signals done. -/
def diskEnvFailTwice : DiskEnv :=
  { attempt := fun n => if n < 2 then some (GoError.msg ("remove failed")) else none,
    ctxDone := fun _ => false }

/- Helper lemmas about the string primitives of the embedding. -/

/-- Boolean prefix test as an existential decomposition. -/
theorem isPrefixOf_iff_ex (p l : GoStr) :
    p.isPrefixOf l = true ↔ ∃ t, p ++ t = l :=
  List.isPrefixOf_iff_prefix

/-- Boolean suffix test as an existential decomposition. -/
theorem isSuffixOf_iff_ex (s l : GoStr) :
    s.isSuffixOf l = true ↔ ∃ t, t ++ s = l :=
  List.isSuffixOf_iff_suffix

/-- splitFirst finds nothing exactly when the separator does not occur. -/
theorem splitFirst_eq_none_iff (sep : Char) : ∀ s : GoStr,
    splitFirst sep s = none ↔ sep ∉ s := by
  intro s
  induction s with
  | nil => simp [splitFirst]
  | cons c t ih =>
    by_cases hc : c = sep
    · subst hc; simp [splitFirst]
    · rw [splitFirst, if_neg hc]
      simp only [Option.map_eq_none', ih, List.mem_cons]
      constructor
      · intro h hmem
        rcases hmem with h1 | h2
        · exact hc h1.symm
        · exact h h2
      · intro h hmem
        exact h (Or.inr hmem)

/-- splitFirst returns exactly the decomposition at the first occurrence of
the separator. -/
theorem splitFirst_eq_some_iff (sep : Char) : ∀ (s a b : GoStr),
    splitFirst sep s = some (a, b) ↔ s = a ++ sep :: b ∧ sep ∉ a := by
  intro s
  induction s with
  | nil =>
    intro a b
    simp [splitFirst]
  | cons c t ih =>
    intro a b
    by_cases hc : c = sep
    · subst hc
      simp only [splitFirst, if_pos rfl]
      constructor
      · rintro h
        injection h with h
        injection h with h1 h2
        subst h1; subst h2
        exact ⟨rfl, by simp⟩
      · rintro ⟨heq, hmem⟩
        cases a with
        | nil => simp at heq; subst heq; rfl
        | cons a0 a =>
          simp [List.cons_append, List.cons.injEq] at heq
          exact absurd (heq.1.symm ▸ List.mem_cons_self a0 a) hmem
    · rw [splitFirst, if_neg hc]
      constructor
      · intro h
        rw [Option.map_eq_some'] at h
        obtain ⟨⟨a0, b0⟩, hsp, heq⟩ := h
        simp only [Prod.mk.injEq] at heq
        obtain ⟨h1, h2⟩ := heq
        subst h1; subst h2
        obtain ⟨ht, hna⟩ := (ih a0 b0).mp hsp
        subst ht
        refine ⟨rfl, ?_⟩
        intro hmem
        rcases List.mem_cons.mp hmem with h1 | h2
        · exact hc h1.symm
        · exact hna h2
      · rintro ⟨heq, hmem⟩
        cases a with
        | nil =>
          simp at heq
          exact absurd heq.1 hc
        | cons x a =>
          injection heq with hx ha
          subst hx
          have hna : sep ∉ a := fun h => hmem (List.mem_cons_of_mem _ h)
          have hsp := (ih a b).mpr ⟨ha, hna⟩
          rw [hsp]
          rfl

/-- The acceptance condition of validateUsername, as an existential
decomposition at the first at sign. -/
theorem validateUsername_ok_iff (u : GoStr) :
    validateUsername u = Except.ok () ↔
      ∃ a b, u = a ++ '@' :: b ∧ '@' ∉ a ∧ a ≠ [] ∧ b ≠ [] := by
  cases h : splitFirst '@' u with
  | none =>
    have hne := (splitFirst_eq_none_iff '@' u).mp h
    rw [validateUsername]
    simp only [splitN2, h]
    rw [if_pos (by simp)]
    constructor
    · intro hok; exact Except.noConfusion hok
    · rintro ⟨a, b, habu, -, -, -⟩
      apply absurd _ hne
      rw [habu]
      exact List.mem_append_right a (List.mem_cons_self '@' b)
  | some p =>
    obtain ⟨a, b⟩ := p
    obtain ⟨hu, hna⟩ := (splitFirst_eq_some_iff '@' u a b).mp h
    rw [validateUsername]
    simp only [splitN2, h]
    rw [if_neg (by simp)]
    have hgd0 : [a, b].getD 0 [] = a := rfl
    have hgd1 : [a, b].getD 1 [] = b := rfl
    rw [hgd0, hgd1]
    by_cases ha : a = []
    · rw [if_pos (by simp [ha])]
      constructor
      · intro hok; exact Except.noConfusion hok
      · rintro ⟨a2, b2, heq, hna2, ha2, hb2⟩
        have h2 := (splitFirst_eq_some_iff '@' u a2 b2).mpr ⟨heq, hna2⟩
        rw [h] at h2
        injection h2 with h2
        injection h2 with h2a h2b
        subst h2a
        exact (ha2 ha).elim
    · rw [if_neg (by simp [List.length_eq_zero, ha])]
      by_cases hb : b = []
      · rw [if_pos (by simp [hb])]
        constructor
        · intro hok; exact Except.noConfusion hok
        · rintro ⟨a2, b2, heq, hna2, ha2, hb2⟩
          have h2 := (splitFirst_eq_some_iff '@' u a2 b2).mpr ⟨heq, hna2⟩
          rw [h] at h2
          injection h2 with h2
          injection h2 with h2a h2b
          subst h2b
          exact (hb2 hb).elim
      · rw [if_neg (by simp [List.length_eq_zero, hb])]
        constructor
        · intro _; exact ⟨a, b, hu, hna, ha, hb⟩
        · intro _; rfl

/- Helper lemmas about the RemoveDisk retry loop. -/

/-- One loop step where the attempt fails and the context is done: the loop
returns the timeout error wrapping the failure of this attempt. -/
theorem removeDiskLoop_fail_done (diskID : GoStr) (env : DiskEnv)
    (fuel n : Nat) (err : GoError) (ha : env.attempt n = some err)
    (hc : env.ctxDone n = true) :
    removeDiskLoop diskID env (fuel + 1) n =
      some ⟨Except.error (GoError.wrap ("timeout while tryint to remove disk " ++ String.mk diskID)
        (GoError.wrap ("failed to remove disk " ++ String.mk diskID) err)), n + 1, n⟩ := by
  rw [removeDiskLoop, ha]
  simp [hc]

/-- One loop step where the attempt fails and the context is not done: the
loop completes a five-second wait and retries. -/
theorem removeDiskLoop_fail_wait (diskID : GoStr) (env : DiskEnv)
    (fuel n : Nat) (err : GoError) (ha : env.attempt n = some err)
    (hc : env.ctxDone n = false) :
    removeDiskLoop diskID env (fuel + 1) n = removeDiskLoop diskID env fuel (n + 1) := by
  rw [removeDiskLoop, ha]
  simp [hc]

/-- One loop step where the attempt succeeds: the loop returns success at
once, without waiting and without consulting the context. -/
theorem removeDiskLoop_success (diskID : GoStr) (env : DiskEnv)
    (fuel n : Nat) (ha : env.attempt n = none) :
    removeDiskLoop diskID env (fuel + 1) n = some ⟨Except.ok (), n + 1, n⟩ := by
  rw [removeDiskLoop, ha]

/- Claim theorems. -/

/-- C1: the claim states that validateURL rejects every url starting with
neither http:// nor https:// and accepts every url starting with one of
them.  The source instead tests a SUFFIX for https://, so the url of the
spec scenario, which starts with https://, is rejected, while a url merely
ending in https:// is accepted.  This theorem evaluates the source at both
inputs. -/
theorem validateURL_asymmetric_eval :
    validateURL ("https://engine.example/ovirt-engine/api".data) =
      Except.error (GoError.msg ("URL must start with http:// or https://")) ∧
    validateURL ("ftp://host/path/https://".data) = Except.ok () :=
  ⟨rfl, rfl⟩

/-- C2: the claim states that New succeeds on the spec scenario
(url=https://engine.example/ovirt-engine/api, username=admin@internal,
insecure=true).  Because validateURL tests a suffix for https://, New
instead fails with the invalid-URL error for every environment, password
and logger. -/
theorem New_rejects_spec_scenario (env : NewEnv) (password : GoStr) (logger : Nat) :
    New env ("https://engine.example/ovirt-engine/api".data) ("admin@internal".data)
        password [] [] true [] logger =
      Except.error (GoError.wrap ("invalid URL: " ++ String.mk ("https://engine.example/ovirt-engine/api".data))
        (GoError.msg ("URL must start with http:// or https://"))) := rfl

/-- C3 counterexample: the claim states that a username with more than one
at sign fails validation; the source accepts a@b@c because SplitN with
limit 2 splits only at the first at sign. -/
theorem validateUsername_accepts_multiple_at :
    validateUsername ("a@b@c".data) = Except.ok () := rfl

/-- C3 amended: the username validation check passes exactly for usernames
of the form a ++ at ++ b where a is non-empty and free of at signs and b is
non-empty (b may itself contain further at signs); whenever the check fails
and the URL check passed, New fails with the wrapped invalid-username
error. -/
theorem validateUsername_amended (u : GoStr) :
    (validateUsername u = Except.ok () ↔
      ∃ a b, u = a ++ '@' :: b ∧ '@' ∉ a ∧ a ≠ [] ∧ b ≠ []) ∧
    (∀ (env : NewEnv) (url password : GoStr) (hdrs : List (GoStr × GoStr))
      (lg : Nat) (e : GoError),
      validateURL url = Except.ok () →
      validateUsername u = Except.error e →
      New env url u password [] [] true hdrs lg =
        Except.error (GoError.wrap ("invalid username: " ++ String.mk u) e)) := by
  constructor
  · exact validateUsername_ok_iff u
  · intro env url password hdrs lg e hurl herr
    rw [New, hurl, herr]

/-- C3 witness: the amended theorem applied to the at-free username ab. -/
theorem validateUsername_amended_witness :
    New newEnvOk ("http://engine.example".data) ("ab".data) [] [] [] true [] 0 =
      Except.error (GoError.wrap ("invalid username: " ++ String.mk ("ab".data))
        (GoError.msg ("username must contain exactly one @ sign (format should be admin@internal)"))) :=
  (validateUsername_amended ("ab".data)).2 newEnvOk ("http://engine.example".data)
    [] [] 0 (GoError.msg ("username must contain exactly one @ sign (format should be admin@internal)")) rfl rfl

/-- C4: when the first removal attempt fails and the supplied context is
already cancelled at the first wait boundary, RemoveDisk performs exactly
one attempt (attemptsMade is one, no wait completes) and returns the
timeout error wrapping the failure of that attempt. -/
theorem RemoveDisk_cancelled_one_attempt (o : oVirtClient) (env : DiskEnv)
    (diskID : GoStr) (fuel : Nat) (e : GoError)
    (hfail : env.attempt 0 = some e) (hdone : env.ctxDone 0 = true)
    (hfuel : 0 < fuel) :
    (o.RemoveDisk env diskID fuel).1 =
      some ⟨Except.error (GoError.wrap ("timeout while tryint to remove disk " ++ String.mk diskID)
        (GoError.wrap ("failed to remove disk " ++ String.mk diskID) e)), 1, 0⟩ := by
  obtain ⟨k, rfl⟩ : ∃ k, fuel = k + 1 := ⟨fuel - 1, by omega⟩
  show removeDiskLoop diskID env (k + 1) 0 = _
  rw [removeDiskLoop_fail_done diskID env k 0 e hfail hdone]

/-- C4 witness: the theorem applied to a concrete client, disk and
environment where every attempt fails and the context is cancelled. -/
theorem RemoveDisk_cancelled_one_attempt_witness :
    diskEnvFailCancelled.attempt 0 = some (GoError.msg ("remove failed")) ∧
    diskEnvFailCancelled.ctxDone 0 = true ∧ 0 < 1 ∧
    (sampleClient.RemoveDisk diskEnvFailCancelled ("disk1".data) 1).1 =
      some ⟨Except.error (GoError.wrap ("timeout while tryint to remove disk " ++ String.mk ("disk1".data))
        (GoError.wrap ("failed to remove disk " ++ String.mk ("disk1".data)) (GoError.msg ("remove failed")))), 1, 0⟩ :=
  ⟨rfl, rfl, by decide,
   RemoveDisk_cancelled_one_attempt sampleClient diskEnvFailCancelled
     ("disk1".data) 1 (GoError.msg ("remove failed")) rfl rfl (by decide)⟩

/-- C5: when the first two removal attempts fail, the third succeeds, and
the context does not signal done at the two wait boundaries in between,
RemoveDisk returns success after exactly two completed waits and three
attempts; moreover any loop step with a successful attempt returns success
immediately, with no wait after it. -/
theorem RemoveDisk_two_failures_then_success (o : oVirtClient) (env : DiskEnv)
    (diskID : GoStr) (fuel : Nat) (e0 e1 : GoError)
    (h0 : env.attempt 0 = some e0) (h1 : env.attempt 1 = some e1)
    (h2 : env.attempt 2 = none)
    (hc0 : env.ctxDone 0 = false) (hc1 : env.ctxDone 1 = false)
    (hfuel : 3 ≤ fuel) :
    (o.RemoveDisk env diskID fuel).1 = some ⟨Except.ok (), 3, 2⟩ ∧
    (∀ (env2 : DiskEnv) (f2 n : Nat), env2.attempt n = none →
      removeDiskLoop diskID env2 (f2 + 1) n = some ⟨Except.ok (), n + 1, n⟩) := by
  constructor
  · obtain ⟨k, rfl⟩ : ∃ k, fuel = k + 3 := ⟨fuel - 3, by omega⟩
    show removeDiskLoop diskID env (k + 2 + 1) 0 = _
    rw [removeDiskLoop_fail_wait diskID env (k + 2) 0 e0 h0 hc0]
    show removeDiskLoop diskID env (k + 1 + 1) 1 = _
    rw [removeDiskLoop_fail_wait diskID env (k + 1) 1 e1 h1 hc1]
    rw [removeDiskLoop_success diskID env k 2 h2]
  · intro env2 f2 n ha
    exact removeDiskLoop_success diskID env2 f2 n ha

/-- C5 witness: the theorem applied to a concrete client, disk and
environment that fails twice and then succeeds. -/
theorem RemoveDisk_two_failures_then_success_witness :
    diskEnvFailTwice.attempt 0 = some (GoError.msg ("remove failed")) ∧
    diskEnvFailTwice.attempt 1 = some (GoError.msg ("remove failed")) ∧
    diskEnvFailTwice.attempt 2 = none ∧
    diskEnvFailTwice.ctxDone 0 = false ∧ diskEnvFailTwice.ctxDone 1 = false ∧
    3 ≤ 3 ∧
    (sampleClient.RemoveDisk diskEnvFailTwice ("disk1".data) 3).1 =
      some ⟨Except.ok (), 3, 2⟩ :=
  ⟨rfl, rfl, rfl, rfl, rfl, by decide,
   (RemoveDisk_two_failures_then_success sampleClient diskEnvFailTwice
     ("disk1".data) 3 (GoError.msg ("remove failed")) (GoError.msg ("remove failed"))
     rfl rfl rfl rfl rfl (by decide)).1⟩

/-- Helper for the certificate-error claim: createTLSConfig fails with the
inline certificate error whenever non-empty CA bytes do not parse as PEM,
regardless of caFile; and when the inline step passed, a non-empty caFile
that cannot be read, or whose contents do not parse as PEM, produces the
certificate error naming that file path. -/
theorem createTLSConfig_certificate_errors (env : TLSEnv) (caFile : GoStr)
    (caCert : List Nat) (insecure : Bool) :
    (caCert ≠ [] → env.pemOk caCert = false →
      createTLSConfig env caFile caCert insecure =
        Except.error (GoError.msg ("the provided CA certificate is not a valid certificate in PEM format"))) ∧
    (caFile ≠ [] → (caCert = [] ∨ env.pemOk caCert = true) →
      (∀ e, env.readFile caFile = Except.error e →
        createTLSConfig env caFile caCert insecure =
          Except.error (GoError.wrap ("failed to read CA certificate from file " ++ String.mk caFile) e)) ∧
      (∀ pem, env.readFile caFile = Except.ok pem → env.pemOk pem = false →
        createTLSConfig env caFile caCert insecure =
          Except.error (GoError.msg ("the provided CA certificate is not a valid certificate in PEM format in file " ++ String.mk caFile)))) := by
  constructor
  · intro hne hbad
    simp only [createTLSConfig]
    rw [if_pos ⟨by simpa [List.length_eq_zero] using hne, hbad⟩]
  · intro hfile hok
    have hcond : ¬(caCert.length ≠ 0 ∧ env.pemOk caCert = false) := by
      rcases hok with hc | hc
      · subst hc
        simp
      · rintro ⟨-, hbad⟩
        rw [hc] at hbad
        exact Bool.noConfusion hbad
    constructor
    · intro e hre
      simp only [createTLSConfig]
      rw [if_neg hcond, if_pos hfile, hre]
    · intro pem hrf hbadpem
      simp only [createTLSConfig]
      rw [if_neg hcond, if_pos hfile, hrf]
      dsimp only
      rw [if_pos hbadpem]

/-- C6: whenever New reaches the TLS step (valid url and username, at
least one trust mechanism, SDK connection build succeeded), unusable CA
material makes New fail with the wrapped certificate error naming the
offending source: non-empty inline caCert bytes that do not parse as PEM
produce the inline certificate error regardless of caFile (the inline
bytes are checked before the file), and a non-empty caFile that cannot be
read, or whose contents do not parse as PEM, produces the certificate
error naming that file path. -/
theorem New_certificate_errors (env : NewEnv)
    (url username password caFile : GoStr) (caCert : List Nat)
    (insecure : Bool) (extraHeaders : List (GoStr × GoStr)) (logger : Nat)
    (conn : Nat)
    (hu : validateURL url = Except.ok ())
    (hn : validateUsername username = Except.ok ())
    (hb : env.buildConn
      { url := url, username := username, password := password,
        caFile := caFile, caCert := caCert, insecure := insecure,
        headers := if extraHeaders.length > 0 then some extraHeaders else none,
        logFunc := logger } = Except.ok conn) :
    (caCert ≠ [] → env.tlsEnv.pemOk caCert = false →
      New env url username password caFile caCert insecure extraHeaders logger =
        Except.error (GoError.wrap ("failed to create TLS configuration")
          (GoError.msg ("the provided CA certificate is not a valid certificate in PEM format")))) ∧
    (caFile ≠ [] → (caCert = [] ∨ env.tlsEnv.pemOk caCert = true) →
      (∀ e, env.tlsEnv.readFile caFile = Except.error e →
        New env url username password caFile caCert insecure extraHeaders logger =
          Except.error (GoError.wrap ("failed to create TLS configuration")
            (GoError.wrap ("failed to read CA certificate from file " ++ String.mk caFile) e))) ∧
      (∀ pem, env.tlsEnv.readFile caFile = Except.ok pem → env.tlsEnv.pemOk pem = false →
        New env url username password caFile caCert insecure extraHeaders logger =
          Except.error (GoError.wrap ("failed to create TLS configuration")
            (GoError.msg ("the provided CA certificate is not a valid certificate in PEM format in file " ++ String.mk caFile))))) := by
  constructor
  · intro hne hbad
    have hcond : ¬(caFile = [] ∧ caCert.length = 0 ∧ insecure = false) := by
      rintro ⟨-, hc, -⟩
      exact hne (List.length_eq_zero.mp hc)
    rw [New, hu, hn, if_neg hcond, hb,
      (createTLSConfig_certificate_errors env.tlsEnv caFile caCert insecure).1 hne hbad]
  · intro hfile hok
    have hcond : ¬(caFile = [] ∧ caCert.length = 0 ∧ insecure = false) := by
      rintro ⟨hf, -, -⟩
      exact hfile hf
    constructor
    · intro e hre
      rw [New, hu, hn, if_neg hcond, hb,
        ((createTLSConfig_certificate_errors env.tlsEnv caFile caCert insecure).2 hfile hok).1 e hre]
    · intro pem hrf hbadpem
      rw [New, hu, hn, if_neg hcond, hb,
        ((createTLSConfig_certificate_errors env.tlsEnv caFile caCert insecure).2 hfile hok).2 pem hrf hbadpem]

/-- C6 witness: the theorem applied to unparseable inline bytes and to a
missing CA file, under an always-succeeding connection builder. -/
theorem New_certificate_errors_witness :
    New newEnvBadPEM ("http://engine.example".data) ("admin@internal".data) [] [] [1] false [] 0 =
      Except.error (GoError.wrap ("failed to create TLS configuration")
        (GoError.msg ("the provided CA certificate is not a valid certificate in PEM format"))) ∧
    New newEnvOk ("http://engine.example".data) ("admin@internal".data) [] ("ca.pem".data) [] false [] 0 =
      Except.error (GoError.wrap ("failed to create TLS configuration")
        (GoError.wrap ("failed to read CA certificate from file " ++ String.mk ("ca.pem".data))
          (GoError.msg ("no such file or directory")))) :=
  ⟨(New_certificate_errors newEnvBadPEM ("http://engine.example".data) ("admin@internal".data)
      [] [] [1] false [] 0 0 rfl rfl rfl).1 (by decide) rfl,
   ((New_certificate_errors newEnvOk ("http://engine.example".data) ("admin@internal".data)
      [] ("ca.pem".data) [] false [] 0 0 rfl rfl rfl).2 (by decide) (Or.inl rfl)).1
     (GoError.msg ("no such file or directory")) rfl⟩

/-- C7: with empty caFile, empty caCert and insecure false, New fails with
the missing-trust error for every environment and otherwise-valid url and
username; when at least one trust mechanism is present, New never returns
that error. -/
theorem New_missing_trust_configuration (env : NewEnv)
    (url username password : GoStr) (extraHeaders : List (GoStr × GoStr))
    (logger : Nat)
    (hu : validateURL url = Except.ok ())
    (hn : validateUsername username = Except.ok ()) :
    New env url username password [] [] false extraHeaders logger =
      Except.error (GoError.msg ("one of caFile, caCert, or insecure must be provided")) ∧
    (∀ (caFile : GoStr) (caCert : List Nat) (insecure : Bool),
      (caFile ≠ [] ∨ caCert ≠ [] ∨ insecure = true) →
      New env url username password caFile caCert insecure extraHeaders logger ≠
        Except.error (GoError.msg ("one of caFile, caCert, or insecure must be provided"))) := by
  constructor
  · rw [New, hu, hn]
    rw [if_pos ⟨rfl, rfl, rfl⟩]
  · intro caFile caCert insecure htrust
    rw [New, hu, hn]
    have hcond : ¬(caFile = [] ∧ caCert.length = 0 ∧ insecure = false) := by
      rintro ⟨hf, hc, hi⟩
      rcases htrust with h | h | h
      · exact h hf
      · exact h (List.length_eq_zero.mp hc)
      · rw [h] at hi
        exact Bool.noConfusion hi
    rw [if_neg hcond]
    cases env.buildConn
        { url := url, username := username, password := password,
          caFile := caFile, caCert := caCert, insecure := insecure,
          headers := if extraHeaders.length > 0 then some extraHeaders else none,
          logFunc := logger } with
    | error e =>
      intro hcontra
      injection hcontra with hcontra
      exact GoError.noConfusion hcontra
    | ok conn =>
      cases createTLSConfig env.tlsEnv caFile caCert insecure with
      | error e =>
        intro hcontra
        injection hcontra with hcontra
        exact GoError.noConfusion hcontra
      | ok cfg =>
        intro hcontra
        exact Except.noConfusion hcontra

/-- C7 witness: the theorem applied to a valid url and username with all
three trust mechanisms absent. -/
theorem New_missing_trust_configuration_witness :
    validateURL ("http://engine.example".data) = Except.ok () ∧
    validateUsername ("admin@internal".data) = Except.ok () ∧
    New newEnvOk ("http://engine.example".data) ("admin@internal".data) [] [] [] false [] 0 =
      Except.error (GoError.msg ("one of caFile, caCert, or insecure must be provided")) :=
  ⟨rfl, rfl,
   (New_missing_trust_configuration newEnvOk ("http://engine.example".data)
     ("admin@internal".data) [] [] 0 rfl rfl).1⟩

/-- C8: every successful createTLSConfig result has minimum version TLS
1.2, exactly the six fixed ECDHE AEAD cipher suites in order, curves P-256
then P-384, and the skip-verify flag equal to the insecure argument. -/
theorem createTLSConfig_ok_fields (env : TLSEnv) (caFile : GoStr)
    (caCert : List Nat) (insecure : Bool) (cfg : TLSConfig)
    (h : createTLSConfig env caFile caCert insecure = Except.ok cfg) :
    cfg.minVersion = VersionTLS12 ∧
    cfg.cipherSuites = [
      TLS_ECDHE_ECDSA_WITH_AES_128_GCM_SHA256,
      TLS_ECDHE_RSA_WITH_AES_128_GCM_SHA256,
      TLS_ECDHE_ECDSA_WITH_AES_256_GCM_SHA384,
      TLS_ECDHE_RSA_WITH_AES_256_GCM_SHA384,
      TLS_ECDHE_ECDSA_WITH_CHACHA20_POLY1305,
      TLS_ECDHE_RSA_WITH_CHACHA20_POLY1305] ∧
    cfg.curvePreferences = [CurveP256, CurveP384] ∧
    cfg.preferServerCipherSuites = false ∧
    cfg.insecureSkipVerify = insecure := by
  simp only [createTLSConfig] at h
  by_cases hcc : caCert.length ≠ 0 ∧ env.pemOk caCert = false
  · rw [if_pos hcc] at h
    exact Except.noConfusion h
  · rw [if_neg hcc] at h
    by_cases hcf : caFile ≠ []
    · rw [if_pos hcf] at h
      cases hre : env.readFile caFile with
      | error e =>
        rw [hre] at h
        dsimp only at h
        exact Except.noConfusion h
      | ok pem =>
        rw [hre] at h
        dsimp only at h
        by_cases hbad : env.pemOk pem = false
        · rw [if_pos hbad] at h
          exact Except.noConfusion h
        · rw [if_neg hbad] at h
          injection h with h
          subst h
          exact ⟨rfl, rfl, rfl, rfl, rfl⟩
    · rw [if_neg hcf] at h
      injection h with h
      subst h
      exact ⟨rfl, rfl, rfl, rfl, rfl⟩

/-- C8 witness: the theorem applied to the insecure configuration built
with no CA material. -/
theorem createTLSConfig_ok_fields_witness :
    createTLSConfig tlsEnvNoFile [] [] true = Except.ok tlsSample ∧
    (tlsSample.minVersion = VersionTLS12 ∧
     tlsSample.cipherSuites = [
       TLS_ECDHE_ECDSA_WITH_AES_128_GCM_SHA256,
       TLS_ECDHE_RSA_WITH_AES_128_GCM_SHA256,
       TLS_ECDHE_ECDSA_WITH_AES_256_GCM_SHA384,
       TLS_ECDHE_RSA_WITH_AES_256_GCM_SHA384,
       TLS_ECDHE_ECDSA_WITH_CHACHA20_POLY1305,
       TLS_ECDHE_RSA_WITH_CHACHA20_POLY1305] ∧
     tlsSample.curvePreferences = [CurveP256, CurveP384] ∧
     tlsSample.preferServerCipherSuites = false ∧
     tlsSample.insecureSkipVerify = true) :=
  ⟨rfl, createTLSConfig_ok_fields tlsEnvNoFile [] [] true tlsSample rfl⟩

/-- C9: the accessors return the stored connection, HTTP client and url,
every operation including RemoveDisk leaves the wrapper state unchanged,
and therefore repeated calls return equal values every time. -/
theorem wrapper_accessors_idempotent (o : oVirtClient) (env : DiskEnv)
    (diskID : GoStr) (fuel : Nat) :
    (o.GetSDKClient).2 = o ∧ (o.GetHTTPClient).2 = o ∧ (o.GetURL).2 = o ∧
    (o.RemoveDisk env diskID fuel).2 = o ∧
    (o.GetSDKClient).1 = o.conn ∧ (o.GetHTTPClient).1 = o.httpClient ∧
    (o.GetURL).1 = o.url ∧
    (((o.GetSDKClient).2).GetSDKClient).1 = (o.GetSDKClient).1 ∧
    (((o.GetHTTPClient).2).GetHTTPClient).1 = (o.GetHTTPClient).1 ∧
    (((o.GetURL).2).GetURL).1 = (o.GetURL).1 ∧
    (((o.RemoveDisk env diskID fuel).2).GetSDKClient).1 = (o.GetSDKClient).1 ∧
    (((o.RemoveDisk env diskID fuel).2).GetHTTPClient).1 = (o.GetHTTPClient).1 ∧
    (((o.RemoveDisk env diskID fuel).2).GetURL).1 = (o.GetURL).1 :=
  ⟨rfl, rfl, rfl, rfl, rfl, rfl, rfl, rfl, rfl, rfl, rfl, rfl, rfl⟩

/-- C10: validateURL accepts exactly the strings that start with http:// or
end with https://; every string ending in https:// passes, and every
string that neither starts with http:// nor ends with https:// fails. -/
theorem validateURL_ok_iff (url : GoStr) :
    validateURL url = Except.ok () ↔
      ((∃ t, httpScheme ++ t = url) ∨ (∃ t, t ++ httpsScheme = url)) := by
  rw [validateURL]
  by_cases hp : httpScheme.isPrefixOf url = true
  · rw [if_neg (by simp [hp])]
    exact iff_of_true rfl (Or.inl ((isPrefixOf_iff_ex _ _).mp hp))
  · by_cases hs : httpsScheme.isSuffixOf url = true
    · rw [if_neg (by simp [hs])]
      exact iff_of_true rfl (Or.inr ((isSuffixOf_iff_ex _ _).mp hs))
    · rw [if_pos (by rw [Bool.not_eq_true] at hp hs; simp [hp, hs])]
      apply iff_of_false
      · intro hok; exact Except.noConfusion hok
      · rintro (hex | hex)
        · exact hp ((isPrefixOf_iff_ex _ _).mpr hex)
        · exact hs ((isSuffixOf_iff_ex _ _).mpr hex)

end GoVirt
